import Mathlib

/-!
Shallow embedding of `trainval_net.py`, the training driver of the CIOD
(class-incremental object detection) repository, together with theorems
about its group/epoch/iteration orchestration.

Conventions:
* Python floats are modelled as rationals (`ℚ`); the properties under study
  are about which arithmetic operations the script applies, not rounding.
* The deep-learning framework (network construction, forward/backward,
  data loading, optimizer math) is external to the repository; it is
  abstracted by the `Env` structure, whose fields stand for the framework
  calls the script makes.  The optimizer object is abstracted to its kind
  and its (uniform) learning rate, since `set_learning_rate` sets every
  parameter group to the same rate at the start of each group.
* Python exceptions are modelled by `Except String`, the error string naming
  the exception: `KeyError("Unknown Network")` becomes
  `Except.error "Unknown Network"`, an out-of-range list subscript becomes
  `Except.error "IndexError"`, `int()` on a malformed string becomes
  `Except.error "ValueError"`, and integer division or modulo by zero
  becomes `Except.error "ZeroDivisionError"`.
* Config fields that the script reads but that do not affect any modelled
  quantity (display frequency, weight decay of the abstracted parameter
  list, CUDA/multi-GPU placement, the dataset extension string) are omitted.
-/

/-- Entries of `cfg.TRAIN` read by `trainval_net.py`. -/
structure TrainCfg where
  LEARNING_RATE : ℚ
  LEARNING_RATE_DECAY_GAMMA : ℚ
  LEARNING_RATE_DECAY_STEP : ℕ
  MAX_EPOCH : ℕ
  BATCH_SIZE : ℕ
  MOMENTUM : ℚ
  OPTIMIZER : String
  deriving DecidableEq, Repr

/-- Entries of `cfg.CIOD` read by `trainval_net.py`. -/
structure CiodCfg where
  GROUPS : ℕ
  TOTAL_CLS : ℕ
  TOTAL_PROTO : ℕ
  DISTILL_GROUP : ℕ
  deriving DecidableEq, Repr

/-- The configuration object `cfg` (after `cfg_from_file` and `cfg_fix`). -/
structure Cfg where
  TRAIN : TrainCfg
  CIOD : CiodCfg
  NUM_CLASSES : ℕ
  CLASSES : List String
  POOLING_MODE : String
  deriving DecidableEq, Repr

/-- The command-line arguments of `parse_args` that the modelled code reads. -/
structure Args where
  session : ℤ
  group : ℤ
  dataset : String
  net : String
  class_agnostic : Bool
  save_dir : String
  deriving DecidableEq, Repr

/-- The optimizer kind chosen at lines 145-151. -/
inductive OptKind where
  | adam : OptKind
  | sgd : ℚ → OptKind
  deriving DecidableEq, Repr, Inhabited

/-- The optimizer object, abstracted to its kind and its uniform learning
rate (see the module docstring). -/
structure Optimizer where
  kind : OptKind
  lr : ℚ
  deriving DecidableEq, Repr, Inhabited

/-- The external deep-learning framework and dataset, abstracted.  `M` is the
type of detector parameter states. -/
structure Env (M : Type) where
  /-- Line 115: `vgg16(cfg.CLASSES, pretrained=True, class_agnostic=...)`
  followed by `create_architecture()`: the fresh pretrained VGG16 detector. -/
  vgg16Model : List String → Bool → M
  /-- Lines 117-118: `resnet(cfg.CLASSES, depth, pretrained=True, ...)`
  followed by `create_architecture()`: the fresh pretrained ResNet detector. -/
  resnetModel : List String → ℤ → Bool → M
  /-- The effect on the detector parameters of one training iteration
  (lines 186-211: fetch a batch, forward, backward, optimizer step). -/
  trainStep : M → M
  /-- Line 163: `len(roidb)` for the roidb that `combined_roidb` builds for a
  given group (the group number determines the image-set name
  `trainvalStep{group}a`). -/
  roidbSize : ℤ → ℕ
  /-- Line 200: `F.cross_entropy(scores, labels)` of the framework. -/
  cross_entropy : List (List ℚ) → List ℕ → ℚ

/-- Python list subscripting `xs[i]` with an `int` index: nonnegative indices
from the front, negative indices from the back, `none` for `IndexError`. -/
def pyIndex {α : Type} (xs : List α) (i : ℤ) : Option α :=
  if 0 ≤ i then xs[i.toNat]?
  else if 0 ≤ (xs.length : ℤ) + i then xs[((xs.length : ℤ) + i).toNat]?
  else none

/-- Python `int(s)` on a simple numeric string: an optional sign followed by
decimal digits; `none` for `ValueError`.  (Whitespace stripping and
underscore separators of Python's `int` are not modelled; the script only
applies this to suffixes of `args.net` such as `"101"`.) -/
def pyInt? (s : String) : Option ℤ :=
  let core : List Char → Option ℕ := fun t =>
    if t = [] then none
    else if t.all Char.isDigit then
      some (t.foldl (fun a c => a * 10 + (c.toNat - 48)) 0)
    else none
  match s.data with
  | '-' :: rest => (core rest).map (fun n => -(n : ℤ))
  | '+' :: rest => (core rest).map (fun n => (n : ℤ))
  | l => (core l).map (fun n => (n : ℤ))

/-- Modelled from the spec: `ciod_old_and_new` is imported from
`model.utils.net_utils`, which is not part of src/.  Per the spec, the
`cfg.NUM_CLASSES` object classes are partitioned into `cfg.CIOD.GROUPS`
successive groups; the returned `group_cls` is the list of class-index
boundaries, with boundary `g` equal to `numClasses * g / groups + 1`
(class index 0 is the background class, so boundary 0 is 1 and boundary
`groups` is `numClasses + 1`).  The second and third values returned by the
Python function (`group_cls_arr`, `group_merged_arr`) are unused by
`trainval_net.py` and are not modelled. -/
def ciod_old_and_new (numClasses groups _distillGroup : ℕ) : List ℕ :=
  (List.range (groups + 1)).map (fun g => numClasses * g / groups + 1)

/-- Line 106: `start_group, end_group = (0, cfg.CIOD.GROUPS) if args.group == -1
else (args.group, args.group + 1)`. -/
def start_end_group (groups : ℕ) (argGroup : ℤ) : ℤ × ℤ :=
  if argGroup = -1 then (0, (groups : ℤ)) else (argGroup, argGroup + 1)

/-- Python `range(a, b)` over `int`s, as a list. -/
def intRange (a b : ℤ) : List ℤ :=
  (List.range (b - a).toNat).map (fun i => a + (i : ℤ))

/-- Line 109: the groups the loop `for group in trange(start_group, end_group)`
iterates over. -/
def trainedGroups (groups : ℕ) (argGroup : ℤ) : List ℤ :=
  intRange (start_end_group groups argGroup).1 (start_end_group groups argGroup).2

/-- Line 88: `output_dir = os.path.join(args.save_dir, str(args.session),
args.net, args.dataset)`. -/
def output_dir (args : Args) : String :=
  args.save_dir ++ "/" ++ toString args.session ++ "/" ++ args.net ++ "/" ++ args.dataset

/-- Lines 244-246: the checkpoint file name
`faster_rcnn_{session}_{net}_{dataset}_{group}.pth` under `output_dir`. -/
def save_name (args : Args) (group : ℤ) : String :=
  output_dir args ++ "/" ++ "faster_rcnn_" ++ toString args.session ++ "_" ++ args.net ++
    "_" ++ args.dataset ++ "_" ++ toString group ++ ".pth"

/-- Line 98: `class_means = torch.zeros(2048, cfg.NUM_CLASSES + 1)`. -/
def class_means (numClasses : ℕ) : List (List ℚ) :=
  List.replicate 2048 (List.replicate (numClasses + 1) 0)

/-- Line 100: `class_proto = [[] for _ in range(cfg.CIOD.TOTAL_CLS + 1)]`. -/
def class_proto (totalCls : ℕ) : List (List ℚ) :=
  List.replicate (totalCls + 1) []

/-- Modelled from the spec: `set_learning_rate` is imported from
`model.utils.net_utils`, which is not part of src/.  Per the spec's
description of per-group learning-rate configuration, it sets the learning
rate of every parameter group of the optimizer to the given value. -/
def set_learning_rate (o : Optimizer) (lr : ℚ) : Optimizer :=
  { o with lr := lr }

/-- Modelled from the spec: `adjust_learning_rate` is imported from
`model.utils.net_utils`, which is not part of src/.  Per the spec's
description of the learning-rate schedule, it multiplies the learning rate
of every parameter group of the optimizer by the given decay factor. -/
def adjust_learning_rate (o : Optimizer) (decay : ℚ) : Optimizer :=
  { o with lr := o.lr * decay }

/-- The dict saved at lines 247-256. -/
structure CkptDict (M : Type) where
  session : ℤ
  epoch : ℕ
  model : M
  optimizer : Optimizer
  pooling_mode : String
  class_agnostic : Bool
  cls_means : List (List ℚ)
  cls_proto : List (List ℚ)
  deriving DecidableEq, Inhabited

/-- A checkpoint written to disk: the dict together with the path. -/
structure SavedCkpt (M : Type) where
  path : String
  dict : CkptDict M
  deriving DecidableEq, Inhabited

/-- Modelled from the spec: `save_checkpoint` is imported from
`model.utils.net_utils`, which is not part of src/.  Per the spec's
description of checkpoint saving, it serializes the given dict to the given
path. -/
def save_checkpoint {M : Type} (d : CkptDict M) (path : String) : SavedCkpt M :=
  { path := path, dict := d }

/-- Lines 114-120: network selection.  `vgg16` and `res*` construct a fresh
pretrained detector; any other name raises `KeyError("Unknown Network")`.
In the `res*` branch, `int(args.net[3:])` raises `ValueError` when the
suffix is not numeric. -/
def mkNet {M : Type} (env : Env M) (classes : List String) (net : String)
    (class_agnostic : Bool) : Except String M :=
  if net = "vgg16" then Except.ok (env.vgg16Model classes class_agnostic)
  else if net.startsWith "res" then
    match pyInt? (net.drop 3) with
    | some depth => Except.ok (env.resnetModel classes depth class_agnostic)
    | none => Except.error "ValueError"
  else Except.error "Unknown Network"

/-- Lines 145-151: optimizer selection.  The parameter list built at
lines 130-143 (per-parameter learning rates and weight decays) is abstracted
away because `set_learning_rate` at line 156 immediately overwrites every
parameter group's rate; the constructed optimizer carries the base rate
`cfg.TRAIN.LEARNING_RATE`. -/
def mkOptimizer (cfg : Cfg) : Except String Optimizer :=
  if cfg.TRAIN.OPTIMIZER = "adam" then
    Except.ok { kind := OptKind.adam, lr := cfg.TRAIN.LEARNING_RATE }
  else if cfg.TRAIN.OPTIMIZER = "sgd" then
    Except.ok { kind := OptKind.sgd cfg.TRAIN.MOMENTUM, lr := cfg.TRAIN.LEARNING_RATE }
  else Except.error "Unknown Optimizer"

/-- An `Option` lifted to `Except`, the message naming the exception. -/
def liftOpt {α : Type} (o : Option α) (msg : String) : Except String α :=
  match o with
  | some a => Except.ok a
  | none => Except.error msg

/-- Raise the named exception when the condition holds. -/
def guardNot (c : Prop) [Decidable c] (msg : String) : Except String Unit :=
  if c then Except.error msg else Except.ok ()

/-- The values a group's setup (lines 110-171, before the epoch loop)
produces. -/
structure GroupSetup (M : Type) where
  now_cls_low : ℕ
  now_cls_high : ℕ
  max_proto : ℕ
  freshModel : M
  lr0 : ℚ
  optimizer0 : Optimizer
  deriving DecidableEq

/-- Lines 153-155: `lr = cfg.TRAIN.LEARNING_RATE` followed by `lr = lr * 0.1`
when the optimizer is adam — the rate that `set_learning_rate` installs. -/
def groupLr (cfg : Cfg) : ℚ :=
  if cfg.TRAIN.OPTIMIZER = "adam" then cfg.TRAIN.LEARNING_RATE * (1 / 10)
  else cfg.TRAIN.LEARNING_RATE

/-- Lines 110-171 of the group body: class-boundary lookup, `max_proto`,
network construction, optimizer construction, learning-rate reset.
Checks appear in source order: the subscripts `group_cls[group]` and
`group_cls[group + 1]` (line 110), the division by `now_cls_high - 1`
(line 111), network selection (lines 114-120), optimizer selection
(lines 145-151), the division by `cfg.TRAIN.BATCH_SIZE` (line 171), and —
pulled out of the epoch loop, where Python would raise it at epoch 0 before
any iteration — the modulo by `cfg.TRAIN.LEARNING_RATE_DECAY_STEP`
(line 179), which fires only when there is at least one epoch. -/
def groupCheck {M : Type} (cfg : Cfg) (args : Args) (env : Env M)
    (group_cls : List ℕ) (g : ℤ) : Except String (GroupSetup M) :=
  (liftOpt (pyIndex group_cls g) "IndexError").bind fun now_cls_low =>
  (liftOpt (pyIndex group_cls (g + 1)) "IndexError").bind fun now_cls_high =>
  (guardNot (now_cls_high - 1 = 0) "ZeroDivisionError").bind fun _ =>
  (mkNet env cfg.CLASSES args.net args.class_agnostic).bind fun fresh =>
  (mkOptimizer cfg).bind fun opt0 =>
  (guardNot (cfg.TRAIN.BATCH_SIZE = 0) "ZeroDivisionError").bind fun _ =>
  (guardNot (0 < cfg.TRAIN.MAX_EPOCH ∧ cfg.TRAIN.LEARNING_RATE_DECAY_STEP = 0)
      "ZeroDivisionError").bind fun _ =>
  Except.ok
    { now_cls_low := now_cls_low
      now_cls_high := now_cls_high
      max_proto := max 1 (cfg.CIOD.TOTAL_PROTO / (now_cls_high - 1))
      freshModel := fresh
      lr0 := groupLr cfg
      optimizer0 := set_learning_rate opt0 (groupLr cfg) }

/-- Line 179: the decay condition
`epoch % cfg.TRAIN.LEARNING_RATE_DECAY_STEP == 0 and epoch > 0`. -/
def decayFlag (step e : ℕ) : Bool :=
  (e % step == 0) && decide (0 < e)

/-- The number of epochs `e < E` at whose start the decay fires. -/
def decayCount (step E : ℕ) : ℕ :=
  ((List.range E).filter (fun e => decayFlag step e)).length

/-- The mutable state of the epoch loop: the `lr` variable, the optimizer,
the detector parameters, and the counters `tot_step` (line 173) and the
number of completed epochs. -/
structure EpochSt (M : Type) where
  lr : ℚ
  opt : Optimizer
  model : M
  tot_step : ℕ
  epochs_done : ℕ
  deriving DecidableEq, Inhabited

/-- Lines 179-181: the conditional learning-rate decay at the start of an
epoch, applied both to the optimizer (`adjust_learning_rate`) and to the
local `lr` variable. -/
def decayed {M : Type} (gamma : ℚ) (st : EpochSt M) (flag : Bool) : EpochSt M :=
  if flag then
    { st with lr := st.lr * gamma, opt := adjust_learning_rate st.opt gamma }
  else st

/-- Lines 176-241: the body of one epoch — the conditional decay, then
`iters_per_epoch` training iterations, each advancing the detector state and
`tot_step`. -/
def epochBody {M : Type} (step : ℕ) (gamma : ℚ) (iters : ℕ) (f : M → M)
    (st : EpochSt M) (e : ℕ) : EpochSt M :=
  let st1 := decayed gamma st (decayFlag step e)
  { st1 with
    model := f^[iters] st1.model
    tot_step := st1.tot_step + iters
    epochs_done := st1.epochs_done + 1 }

/-- The epoch loop run for the first `E` epochs. -/
def epochLoopTo {M : Type} (step : ℕ) (gamma : ℚ) (iters : ℕ) (f : M → M)
    (st : EpochSt M) (E : ℕ) : EpochSt M :=
  (List.range E).foldl (fun s e => epochBody step gamma iters f s e) st

/-- The record of one trained group. -/
structure GroupRun (M : Type) where
  group : ℤ
  now_cls_low : ℕ
  now_cls_high : ℕ
  max_proto : ℕ
  /-- Line 161: the `classes=cfg.CLASSES[:now_cls_high]` argument of
  `combined_roidb`. -/
  trainClasses : List String
  train_size : ℕ
  iters_per_epoch : ℕ
  /-- The state entering the epoch loop: the freshly constructed detector,
  the reset learning rate, `tot_step = 0`. -/
  st0 : EpochSt M
  /-- The state after the `cfg.TRAIN.MAX_EPOCH` epochs. -/
  final : EpochSt M
  checkpoint : SavedCkpt M
  deriving DecidableEq, Inhabited

/-- Lines 157-258 given a successful setup: dataset loading, the epoch loop,
and the checkpoint save. -/
def mkRun {M : Type} (cfg : Cfg) (args : Args) (env : Env M) (g : ℤ)
    (s : GroupSetup M) : GroupRun M :=
  let train_size := env.roidbSize g
  let iters_per_epoch := train_size / cfg.TRAIN.BATCH_SIZE
  let st0 : EpochSt M :=
    { lr := s.lr0, opt := s.optimizer0, model := s.freshModel,
      tot_step := 0, epochs_done := 0 }
  let final := epochLoopTo cfg.TRAIN.LEARNING_RATE_DECAY_STEP
    cfg.TRAIN.LEARNING_RATE_DECAY_GAMMA iters_per_epoch env.trainStep st0
    cfg.TRAIN.MAX_EPOCH
  { group := g
    now_cls_low := s.now_cls_low
    now_cls_high := s.now_cls_high
    max_proto := s.max_proto
    trainClasses := cfg.CLASSES.take s.now_cls_high
    train_size := train_size
    iters_per_epoch := iters_per_epoch
    st0 := st0
    final := final
    checkpoint := save_checkpoint
      { session := args.session
        epoch := cfg.TRAIN.MAX_EPOCH
        model := final.model
        optimizer := final.opt
        pooling_mode := cfg.POOLING_MODE
        class_agnostic := args.class_agnostic
        cls_means := class_means cfg.NUM_CLASSES
        cls_proto := class_proto cfg.CIOD.TOTAL_CLS }
      (save_name args g) }

/-- Lines 109-258: the whole body of the group loop for one group. -/
def groupStep {M : Type} (cfg : Cfg) (args : Args) (env : Env M)
    (group_cls : List ℕ) (g : ℤ) : Except String (GroupRun M) :=
  Except.map (mkRun cfg args env g) (groupCheck cfg args env group_cls g)

/-- The group loop over a given list of groups; an exception aborts the
script. -/
def runGroupsAux {M : Type} (cfg : Cfg) (args : Args) (env : Env M)
    (group_cls : List ℕ) : List ℤ → Except String (List (GroupRun M))
  | [] => Except.ok []
  | g :: gs =>
    match groupStep cfg args env group_cls g with
    | Except.error e => Except.error e
    | Except.ok r =>
      match runGroupsAux cfg args env group_cls gs with
      | Except.error e => Except.error e
      | Except.ok rs => Except.ok (r :: rs)

/-- Lines 102-258: the whole training script after configuration — compute
`group_cls` (line 102) and run the group loop over `trange(start_group,
end_group)` (line 109). -/
def runGroups {M : Type} (cfg : Cfg) (args : Args) (env : Env M) :
    Except String (List (GroupRun M)) :=
  runGroupsAux cfg args env
    (ciod_old_and_new cfg.NUM_CLASSES cfg.CIOD.GROUPS cfg.CIOD.DISTILL_GROUP)
    (trainedGroups cfg.CIOD.GROUPS args.group)

/-- The tensors returned by `fasterRCNN(im_data, im_info, gt_boxes,
num_boxes)` at lines 194-198 that enter the loss computation.  Loss tensors
are lists of per-GPU values (`.mean()` averages them); `cls_score` is the
ROI-by-class score matrix. -/
structure ForwardOut where
  rpn_loss_cls : List ℚ
  rpn_loss_bbox : List ℚ
  RCNN_loss_cls : List ℚ
  RCNN_loss_bbox : List ℚ
  cls_score : List (List ℚ)
  rois_label : List ℕ
  deriving DecidableEq

/-- `tensor.mean()` on a one-dimensional tensor. -/
def mean (xs : List ℚ) : ℚ :=
  xs.sum / (xs.length : ℚ)

/-- Lines 200-202: `RCNN_loss_cls` is rebound to
`F.cross_entropy(cls_score[..., :now_cls_high], rois_label)` (a scalar, so
its `.mean()` is itself), and the backpropagated loss is the sum of the four
means. -/
def iterLoss {M : Type} (env : Env M) (now_cls_high : ℕ) (o : ForwardOut) : ℚ :=
  let RCNN_loss_cls : ℚ :=
    env.cross_entropy (o.cls_score.map (fun row => row.take now_cls_high)) o.rois_label
  mean o.rpn_loss_cls + mean o.rpn_loss_bbox + RCNN_loss_cls + mean o.RCNN_loss_bbox

/-! ### Generic facts about the `Except` plumbing -/

theorem except_error_bind {ε α β : Type} (m : ε) (f : α → Except ε β) :
    (Except.error m : Except ε α).bind f = Except.error m := rfl

theorem except_bind_ok {ε α β : Type} {e : Except ε α} {f : α → Except ε β} {b : β} :
    e.bind f = Except.ok b ↔ ∃ a, e = Except.ok a ∧ f a = Except.ok b := by
  cases e <;> simp [Except.bind]

theorem except_bind_error {ε α β : Type} {e : Except ε α} {f : α → Except ε β} {m : ε} :
    e.bind f = Except.error m ↔
      e = Except.error m ∨ ∃ a, e = Except.ok a ∧ f a = Except.error m := by
  cases e <;> simp [Except.bind]

theorem except_map_ok {ε α β : Type} {e : Except ε α} {f : α → β} {b : β} :
    Except.map f e = Except.ok b ↔ ∃ a, e = Except.ok a ∧ b = f a := by
  cases e <;> simp [Except.map, eq_comm]

theorem except_map_error {ε α β : Type} {e : Except ε α} {f : α → β} {m : ε} :
    Except.map f e = Except.error m ↔ e = Except.error m := by
  cases e <;> simp [Except.map]

theorem liftOpt_ok {α : Type} {o : Option α} {msg : String} {a : α} :
    liftOpt o msg = Except.ok a ↔ o = some a := by
  cases o <;> simp [liftOpt]

theorem liftOpt_error {α : Type} {o : Option α} {msg m : String} :
    liftOpt o msg = Except.error m ↔ o = none ∧ m = msg := by
  cases o <;> simp [liftOpt, eq_comm]

theorem guardNot_ok {c : Prop} [Decidable c] {msg : String} {u : Unit} :
    guardNot c msg = Except.ok u ↔ ¬c := by
  by_cases hc : c <;> simp [guardNot, hc]

theorem guardNot_error {c : Prop} [Decidable c] {msg m : String} :
    guardNot c msg = Except.error m ↔ c ∧ m = msg := by
  by_cases hc : c <;> simp [guardNot, hc, eq_comm]

/-! ### The epoch loop -/

theorem decayed_lr {M : Type} (gamma : ℚ) (st : EpochSt M) (b : Bool) :
    (decayed gamma st b).lr = if b then st.lr * gamma else st.lr := by
  cases b <;> rfl

theorem decayed_opt_lr {M : Type} (gamma : ℚ) (st : EpochSt M) (b : Bool) :
    (decayed gamma st b).opt.lr = if b then st.opt.lr * gamma else st.opt.lr := by
  cases b <;> rfl

theorem decayed_opt_kind {M : Type} (gamma : ℚ) (st : EpochSt M) (b : Bool) :
    (decayed gamma st b).opt.kind = st.opt.kind := by
  cases b <;> rfl

theorem decayed_tot_step {M : Type} (gamma : ℚ) (st : EpochSt M) (b : Bool) :
    (decayed gamma st b).tot_step = st.tot_step := by
  cases b <;> rfl

theorem decayed_epochs_done {M : Type} (gamma : ℚ) (st : EpochSt M) (b : Bool) :
    (decayed gamma st b).epochs_done = st.epochs_done := by
  cases b <;> rfl

theorem epochBody_lr {M : Type} (step : ℕ) (gamma : ℚ) (iters : ℕ) (f : M → M)
    (st : EpochSt M) (e : ℕ) :
    (epochBody step gamma iters f st e).lr =
      if decayFlag step e then st.lr * gamma else st.lr := by
  rw [show (epochBody step gamma iters f st e).lr
      = (decayed gamma st (decayFlag step e)).lr from rfl, decayed_lr]

theorem epochBody_opt_lr {M : Type} (step : ℕ) (gamma : ℚ) (iters : ℕ) (f : M → M)
    (st : EpochSt M) (e : ℕ) :
    (epochBody step gamma iters f st e).opt.lr =
      if decayFlag step e then st.opt.lr * gamma else st.opt.lr := by
  rw [show (epochBody step gamma iters f st e).opt.lr
      = (decayed gamma st (decayFlag step e)).opt.lr from rfl, decayed_opt_lr]

theorem epochBody_opt_kind {M : Type} (step : ℕ) (gamma : ℚ) (iters : ℕ) (f : M → M)
    (st : EpochSt M) (e : ℕ) :
    (epochBody step gamma iters f st e).opt.kind = st.opt.kind := by
  rw [show (epochBody step gamma iters f st e).opt.kind
      = (decayed gamma st (decayFlag step e)).opt.kind from rfl, decayed_opt_kind]

theorem epochBody_tot_step {M : Type} (step : ℕ) (gamma : ℚ) (iters : ℕ) (f : M → M)
    (st : EpochSt M) (e : ℕ) :
    (epochBody step gamma iters f st e).tot_step = st.tot_step + iters := by
  rw [show (epochBody step gamma iters f st e).tot_step
      = (decayed gamma st (decayFlag step e)).tot_step + iters from rfl, decayed_tot_step]

theorem epochBody_epochs_done {M : Type} (step : ℕ) (gamma : ℚ) (iters : ℕ) (f : M → M)
    (st : EpochSt M) (e : ℕ) :
    (epochBody step gamma iters f st e).epochs_done = st.epochs_done + 1 := by
  rw [show (epochBody step gamma iters f st e).epochs_done
      = (decayed gamma st (decayFlag step e)).epochs_done + 1 from rfl, decayed_epochs_done]

theorem epochLoopTo_zero {M : Type} (step : ℕ) (gamma : ℚ) (iters : ℕ) (f : M → M)
    (st : EpochSt M) : epochLoopTo step gamma iters f st 0 = st := rfl

theorem epochLoopTo_succ {M : Type} (step : ℕ) (gamma : ℚ) (iters : ℕ) (f : M → M)
    (st : EpochSt M) (E : ℕ) :
    epochLoopTo step gamma iters f st (E + 1) =
      epochBody step gamma iters f (epochLoopTo step gamma iters f st E) E := by
  simp [epochLoopTo, List.range_succ]

theorem decayCount_zero (step : ℕ) : decayCount step 0 = 0 := rfl

theorem decayCount_succ (step E : ℕ) :
    decayCount step (E + 1) =
      decayCount step E + (if decayFlag step E then 1 else 0) := by
  by_cases h : decayFlag step E <;>
    simp [decayCount, List.range_succ, List.filter_append, h]

/-- The learning-rate variable after `E` epochs: the initial rate multiplied
by the decay factor once per decay epoch. -/
theorem epochLoopTo_lr {M : Type} (step : ℕ) (gamma : ℚ) (iters : ℕ) (f : M → M)
    (st : EpochSt M) : ∀ E : ℕ,
    (epochLoopTo step gamma iters f st E).lr = st.lr * gamma ^ decayCount step E
  | 0 => by simp [epochLoopTo_zero, decayCount_zero]
  | E + 1 => by
    rw [epochLoopTo_succ, epochBody_lr, epochLoopTo_lr step gamma iters f st E,
      decayCount_succ]
    by_cases h : decayFlag step E
    case pos => simp [h]; ring
    case neg => simp [h]

/-- The optimizer's learning rate after `E` epochs. -/
theorem epochLoopTo_opt_lr {M : Type} (step : ℕ) (gamma : ℚ) (iters : ℕ) (f : M → M)
    (st : EpochSt M) : ∀ E : ℕ,
    (epochLoopTo step gamma iters f st E).opt.lr = st.opt.lr * gamma ^ decayCount step E
  | 0 => by simp [epochLoopTo_zero, decayCount_zero]
  | E + 1 => by
    rw [epochLoopTo_succ, epochBody_opt_lr, epochLoopTo_opt_lr step gamma iters f st E,
      decayCount_succ]
    by_cases h : decayFlag step E
    case pos => simp [h]; ring
    case neg => simp [h]

theorem epochLoopTo_opt_kind {M : Type} (step : ℕ) (gamma : ℚ) (iters : ℕ) (f : M → M)
    (st : EpochSt M) : ∀ E : ℕ,
    (epochLoopTo step gamma iters f st E).opt.kind = st.opt.kind
  | 0 => by simp [epochLoopTo_zero]
  | E + 1 => by
    rw [epochLoopTo_succ, epochBody_opt_kind, epochLoopTo_opt_kind step gamma iters f st E]

theorem epochLoopTo_tot_step {M : Type} (step : ℕ) (gamma : ℚ) (iters : ℕ) (f : M → M)
    (st : EpochSt M) : ∀ E : ℕ,
    (epochLoopTo step gamma iters f st E).tot_step = st.tot_step + E * iters
  | 0 => by simp [epochLoopTo_zero]
  | E + 1 => by
    rw [epochLoopTo_succ, epochBody_tot_step, epochLoopTo_tot_step step gamma iters f st E]
    ring

theorem epochLoopTo_epochs_done {M : Type} (step : ℕ) (gamma : ℚ) (iters : ℕ) (f : M → M)
    (st : EpochSt M) : ∀ E : ℕ,
    (epochLoopTo step gamma iters f st E).epochs_done = st.epochs_done + E
  | 0 => by simp [epochLoopTo_zero]
  | E + 1 => by
    rw [epochLoopTo_succ, epochBody_epochs_done,
      epochLoopTo_epochs_done step gamma iters f st E]
    ring

/-! ### Unpacking a successful group setup -/

theorem mkOptimizer_ok {cfg : Cfg} {o : Optimizer} (h : mkOptimizer cfg = Except.ok o) :
    (cfg.TRAIN.OPTIMIZER = "adam" ∨ cfg.TRAIN.OPTIMIZER = "sgd") ∧
    o.kind = (if cfg.TRAIN.OPTIMIZER = "adam" then OptKind.adam
              else OptKind.sgd cfg.TRAIN.MOMENTUM) ∧
    o.lr = cfg.TRAIN.LEARNING_RATE := by
  by_cases ha : cfg.TRAIN.OPTIMIZER = "adam"
  · simp [mkOptimizer, ha] at h
    simp [ha, ← h]
  · by_cases hs : cfg.TRAIN.OPTIMIZER = "sgd"
    · simp [mkOptimizer, ha, hs] at h
      simp [ha, hs, ← h]
    · simp [mkOptimizer, ha, hs] at h

theorem groupCheck_ok {M : Type} {cfg : Cfg} {args : Args} {env : Env M}
    {group_cls : List ℕ} {g : ℤ} {s : GroupSetup M}
    (h : groupCheck cfg args env group_cls g = Except.ok s) :
    pyIndex group_cls g = some s.now_cls_low ∧
    pyIndex group_cls (g + 1) = some s.now_cls_high ∧
    s.now_cls_high - 1 ≠ 0 ∧
    mkNet env cfg.CLASSES args.net args.class_agnostic = Except.ok s.freshModel ∧
    (∃ o, mkOptimizer cfg = Except.ok o ∧ s.optimizer0 = set_learning_rate o s.lr0) ∧
    s.lr0 = groupLr cfg ∧
    cfg.TRAIN.BATCH_SIZE ≠ 0 ∧
    ¬(0 < cfg.TRAIN.MAX_EPOCH ∧ cfg.TRAIN.LEARNING_RATE_DECAY_STEP = 0) := by
  unfold groupCheck at h
  rw [except_bind_ok] at h
  obtain ⟨lo, hlo, h⟩ := h
  rw [except_bind_ok] at h
  obtain ⟨hi, hhi, h⟩ := h
  rw [except_bind_ok] at h
  obtain ⟨u1, hu1, h⟩ := h
  rw [except_bind_ok] at h
  obtain ⟨fresh, hfresh, h⟩ := h
  rw [except_bind_ok] at h
  obtain ⟨opt0, hopt0, h⟩ := h
  rw [except_bind_ok] at h
  obtain ⟨u2, hu2, h⟩ := h
  rw [except_bind_ok] at h
  obtain ⟨u3, hu3, h⟩ := h
  rw [liftOpt_ok] at hlo hhi
  rw [guardNot_ok] at hu1 hu2 hu3
  cases h
  exact ⟨hlo, hhi, hu1, hfresh, ⟨opt0, hopt0, rfl⟩, rfl, hu2, hu3⟩

theorem groupStep_ok {M : Type} {cfg : Cfg} {args : Args} {env : Env M}
    {group_cls : List ℕ} {g : ℤ} {r : GroupRun M}
    (h : groupStep cfg args env group_cls g = Except.ok r) :
    ∃ s, groupCheck cfg args env group_cls g = Except.ok s ∧
      r = mkRun cfg args env g s := by
  unfold groupStep at h
  rw [except_map_ok] at h
  exact h

/-! ### Unpacking the fields of `mkRun` -/

theorem mkRun_group {M : Type} (cfg : Cfg) (args : Args) (env : Env M) (g : ℤ)
    (s : GroupSetup M) : (mkRun cfg args env g s).group = g := rfl

theorem mkRun_now_cls_low {M : Type} (cfg : Cfg) (args : Args) (env : Env M) (g : ℤ)
    (s : GroupSetup M) : (mkRun cfg args env g s).now_cls_low = s.now_cls_low := rfl

theorem mkRun_now_cls_high {M : Type} (cfg : Cfg) (args : Args) (env : Env M) (g : ℤ)
    (s : GroupSetup M) : (mkRun cfg args env g s).now_cls_high = s.now_cls_high := rfl

theorem mkRun_trainClasses {M : Type} (cfg : Cfg) (args : Args) (env : Env M) (g : ℤ)
    (s : GroupSetup M) :
    (mkRun cfg args env g s).trainClasses = cfg.CLASSES.take s.now_cls_high := rfl

theorem mkRun_train_size {M : Type} (cfg : Cfg) (args : Args) (env : Env M) (g : ℤ)
    (s : GroupSetup M) : (mkRun cfg args env g s).train_size = env.roidbSize g := rfl

theorem mkRun_iters_per_epoch {M : Type} (cfg : Cfg) (args : Args) (env : Env M) (g : ℤ)
    (s : GroupSetup M) :
    (mkRun cfg args env g s).iters_per_epoch = env.roidbSize g / cfg.TRAIN.BATCH_SIZE := rfl

theorem mkRun_st0 {M : Type} (cfg : Cfg) (args : Args) (env : Env M) (g : ℤ)
    (s : GroupSetup M) :
    (mkRun cfg args env g s).st0 =
      { lr := s.lr0, opt := s.optimizer0, model := s.freshModel,
        tot_step := 0, epochs_done := 0 } := rfl

theorem mkRun_st0_lr {M : Type} (cfg : Cfg) (args : Args) (env : Env M) (g : ℤ)
    (s : GroupSetup M) : (mkRun cfg args env g s).st0.lr = s.lr0 := rfl

theorem mkRun_st0_opt {M : Type} (cfg : Cfg) (args : Args) (env : Env M) (g : ℤ)
    (s : GroupSetup M) : (mkRun cfg args env g s).st0.opt = s.optimizer0 := rfl

theorem mkRun_st0_model {M : Type} (cfg : Cfg) (args : Args) (env : Env M) (g : ℤ)
    (s : GroupSetup M) : (mkRun cfg args env g s).st0.model = s.freshModel := rfl

theorem mkRun_st0_tot_step {M : Type} (cfg : Cfg) (args : Args) (env : Env M) (g : ℤ)
    (s : GroupSetup M) : (mkRun cfg args env g s).st0.tot_step = 0 := rfl

theorem mkRun_st0_epochs_done {M : Type} (cfg : Cfg) (args : Args) (env : Env M) (g : ℤ)
    (s : GroupSetup M) : (mkRun cfg args env g s).st0.epochs_done = 0 := rfl

theorem mkRun_final {M : Type} (cfg : Cfg) (args : Args) (env : Env M) (g : ℤ)
    (s : GroupSetup M) :
    (mkRun cfg args env g s).final =
      epochLoopTo cfg.TRAIN.LEARNING_RATE_DECAY_STEP cfg.TRAIN.LEARNING_RATE_DECAY_GAMMA
        (mkRun cfg args env g s).iters_per_epoch env.trainStep
        (mkRun cfg args env g s).st0 cfg.TRAIN.MAX_EPOCH := rfl

theorem mkRun_checkpoint {M : Type} (cfg : Cfg) (args : Args) (env : Env M) (g : ℤ)
    (s : GroupSetup M) :
    (mkRun cfg args env g s).checkpoint =
      save_checkpoint
        { session := args.session
          epoch := cfg.TRAIN.MAX_EPOCH
          model := (mkRun cfg args env g s).final.model
          optimizer := (mkRun cfg args env g s).final.opt
          pooling_mode := cfg.POOLING_MODE
          class_agnostic := args.class_agnostic
          cls_means := class_means cfg.NUM_CLASSES
          cls_proto := class_proto cfg.CIOD.TOTAL_CLS }
        (save_name args g) := rfl

/-! ### The group loop -/

theorem runGroupsAux_mem {M : Type} {cfg : Cfg} {args : Args} {env : Env M}
    {group_cls : List ℕ} : ∀ {gs : List ℤ} {rs : List (GroupRun M)},
    runGroupsAux cfg args env group_cls gs = Except.ok rs →
    rs.map (fun r => r.group) = gs ∧
    ∀ r ∈ rs, groupStep cfg args env group_cls r.group = Except.ok r := by
  intro gs
  induction gs with
  | nil =>
    intro rs h
    simp only [runGroupsAux] at h
    cases h
    simp
  | cons g gs ih =>
    intro rs h
    simp only [runGroupsAux] at h
    cases hg : groupStep cfg args env group_cls g with
    | error e => rw [hg] at h; cases h
    | ok r =>
      rw [hg] at h
      cases hrest : runGroupsAux cfg args env group_cls gs with
      | error e => rw [hrest] at h; cases h
      | ok rs2 =>
        rw [hrest] at h
        cases h
        obtain ⟨hmap, hall⟩ := ih hrest
        have hrg : r.group = g := by
          obtain ⟨s, _, hr⟩ := groupStep_ok hg
          rw [hr, mkRun_group]
        constructor
        · simp [hmap, hrg]
        · intro r2 hr2
          rcases List.mem_cons.mp hr2 with h2 | h2
          · subst h2; rw [hrg]; exact hg
          · exact hall r2 h2

theorem runGroups_mem {M : Type} {cfg : Cfg} {args : Args} {env : Env M}
    {rs : List (GroupRun M)} (h : runGroups cfg args env = Except.ok rs) :
    rs.map (fun r => r.group) = trainedGroups cfg.CIOD.GROUPS args.group ∧
    ∀ r ∈ rs, groupStep cfg args env
      (ciod_old_and_new cfg.NUM_CLASSES cfg.CIOD.GROUPS cfg.CIOD.DISTILL_GROUP)
      r.group = Except.ok r :=
  runGroupsAux_mem h

/-! ### Analysis of network and optimizer selection -/

theorem mkNet_ok_elim {M : Type} {env : Env M} {cls : List String} {net : String}
    {cag : Bool} {m : M} (h : mkNet env cls net cag = Except.ok m) :
    net = "vgg16" ∨ net.startsWith "res" := by
  by_cases h1 : net = "vgg16"
  · exact Or.inl h1
  · by_cases h2 : net.startsWith "res"
    · exact Or.inr h2
    · simp [mkNet, h1, h2] at h

theorem mkNet_error_elim {M : Type} {env : Env M} {cls : List String} {net : String}
    {cag : Bool} {e : String} (h : mkNet env cls net cag = Except.error e) :
    (e = "Unknown Network" ∧ ¬(net = "vgg16" ∨ net.startsWith "res")) ∨
    (e = "ValueError" ∧ net.startsWith "res") := by
  by_cases h1 : net = "vgg16"
  · simp [mkNet, h1] at h
  · by_cases h2 : net.startsWith "res"
    · cases hp : pyInt? (net.drop 3) with
      | some d => simp [mkNet, h1, h2, hp] at h
      | none =>
        simp [mkNet, h1, h2, hp] at h
        exact Or.inr ⟨h.symm, h2⟩
    · simp [mkNet, h1, h2] at h
      refine Or.inl ⟨h.symm, ?_⟩
      intro hc
      rcases hc with hc | hc
      · exact h1 hc
      · exact h2 hc

theorem mkNet_error_intro {M : Type} (env : Env M) (cls : List String) {net : String}
    (cag : Bool) (h : ¬(net = "vgg16" ∨ net.startsWith "res")) :
    mkNet env cls net cag = Except.error "Unknown Network" := by
  have h1 : ¬net = "vgg16" := fun hc => h (Or.inl hc)
  have h2 : ¬net.startsWith "res" := fun hc => h (Or.inr hc)
  simp [mkNet, h1, h2]

theorem mkOptimizer_error_elim {cfg : Cfg} {e : String}
    (h : mkOptimizer cfg = Except.error e) :
    e = "Unknown Optimizer" ∧ cfg.TRAIN.OPTIMIZER ≠ "adam" ∧
      cfg.TRAIN.OPTIMIZER ≠ "sgd" := by
  by_cases ha : cfg.TRAIN.OPTIMIZER = "adam"
  · simp [mkOptimizer, ha] at h
  · by_cases hs : cfg.TRAIN.OPTIMIZER = "sgd"
    · simp [mkOptimizer, ha, hs] at h
    · simp [mkOptimizer, ha, hs] at h
      exact ⟨h.symm, ha, hs⟩

theorem mkOptimizer_error_intro {cfg : Cfg} (ha : cfg.TRAIN.OPTIMIZER ≠ "adam")
    (hs : cfg.TRAIN.OPTIMIZER ≠ "sgd") :
    mkOptimizer cfg = Except.error "Unknown Optimizer" := by
  simp [mkOptimizer, ha, hs]

/-- The tail of `groupCheck` after optimizer construction can only raise
`ZeroDivisionError`. -/
theorem guards_tail_error {β : Type} {c1 c2 : Prop} [Decidable c1] [Decidable c2]
    {s : β} {m : String}
    (h : ((guardNot c1 "ZeroDivisionError").bind fun _ =>
          (guardNot c2 "ZeroDivisionError").bind fun _ =>
          (Except.ok s : Except String β)) = Except.error m) :
    m = "ZeroDivisionError" := by
  by_cases hc1 : c1 <;> by_cases hc2 : c2 <;>
    simp [guardNot, hc1, hc2, Except.bind] at h <;> exact h.symm

theorem except_ok_bind {ε α β : Type} (a : α) (f : α → Except ε β) :
    (Except.ok a : Except ε α).bind f = f a := rfl

/-- `groupCheck` once the class-boundary lookups succeed and `now_cls_high`
exceeds 1: it reduces to network selection, optimizer selection, and the two
division guards. -/
theorem groupCheck_eq_of_index {M : Type} (cfg : Cfg) (args : Args) (env : Env M)
    {group_cls : List ℕ} {g : ℤ} {lo hi : ℕ}
    (h1 : pyIndex group_cls g = some lo) (h2 : pyIndex group_cls (g + 1) = some hi)
    (hnz : ¬(hi - 1 = 0)) :
    groupCheck cfg args env group_cls g =
      (mkNet env cfg.CLASSES args.net args.class_agnostic).bind fun fresh =>
      (mkOptimizer cfg).bind fun opt0 =>
      (guardNot (cfg.TRAIN.BATCH_SIZE = 0) "ZeroDivisionError").bind fun _ =>
      (guardNot (0 < cfg.TRAIN.MAX_EPOCH ∧ cfg.TRAIN.LEARNING_RATE_DECAY_STEP = 0)
          "ZeroDivisionError").bind fun _ =>
      Except.ok
        { now_cls_low := lo
          now_cls_high := hi
          max_proto := max 1 (cfg.CIOD.TOTAL_PROTO / (hi - 1))
          freshModel := fresh
          lr0 := groupLr cfg
          optimizer0 := set_learning_rate opt0 (groupLr cfg) } := by
  have l3 : guardNot (hi - 1 = 0) "ZeroDivisionError" = Except.ok () := by
    simp [guardNot, hnz]
  unfold groupCheck
  rw [h1, h2]
  simp only [show liftOpt (some lo) "IndexError" = Except.ok lo from rfl,
    show liftOpt (some hi) "IndexError" = Except.ok hi from rfl, except_ok_bind]
  rw [l3]
  simp only [except_ok_bind]

/-! ### A concrete instantiation, used for counterexamples and witnesses -/

/-- A small concrete configuration: 2 object classes in 2 groups, SGD,
5 epochs, decay step 2, decay factor 1/2, batch size 2. -/
def cfgW : Cfg :=
  { TRAIN :=
      { LEARNING_RATE := 1
        LEARNING_RATE_DECAY_GAMMA := 1 / 2
        LEARNING_RATE_DECAY_STEP := 2
        MAX_EPOCH := 5
        BATCH_SIZE := 2
        MOMENTUM := 9 / 10
        OPTIMIZER := "sgd" }
    CIOD := { GROUPS := 2, TOTAL_CLS := 2, TOTAL_PROTO := 10, DISTILL_GROUP := 1 }
    NUM_CLASSES := 2
    CLASSES := ["__background__", "bird", "boat"]
    POOLING_MODE := "align" }

/-- Concrete command-line arguments: train all groups. -/
def argsW : Args :=
  { session := 1, group := -1, dataset := "2007", net := "vgg16",
    class_agnostic := false, save_dir := "results" }

/-- A concrete framework environment over `M := ℕ`: the fresh detector is the
state `0`, one training iteration is the successor, every group's roidb has
7 entries. -/
def envW : Env ℕ :=
  { vgg16Model := fun _ _ => 0
    resnetModel := fun _ _ _ => 0
    trainStep := Nat.succ
    roidbSize := fun _ => 7
    cross_entropy := fun _ _ => 0 }

/-- The two group runs the script performs on the concrete inputs. -/
def runsW : List (GroupRun ℕ) := (runGroups cfgW argsW envW).toOption.getD []

/-- The run of group 0 on the concrete inputs. -/
def rW0 : GroupRun ℕ := runsW.getD 0 default

/-- The run of group 1 on the concrete inputs. -/
def rW1 : GroupRun ℕ := runsW.getD 1 default

theorem runsW_ok : runGroups cfgW argsW envW = Except.ok runsW := rfl

theorem runsW_eq : runsW = rW0 :: rW1 :: [] := rfl

theorem rW0_mem : rW0 ∈ runsW := by
  rw [runsW_eq]; exact List.mem_cons_self _ _

theorem rW1_mem : rW1 ∈ runsW := by
  rw [runsW_eq]; exact List.mem_cons.mpr (Or.inr (List.mem_cons_self _ _))

/-! ### The claims -/

/-- C3: in every training iteration the backpropagated scalar equals the sum
of the means of exactly four terms — `rpn_loss_cls`, `rpn_loss_bbox`, the
recomputed `RCNN_loss_cls`, and `RCNN_loss_bbox` — where the classification
loss is the cross-entropy of `cls_score` restricted to the first
`now_cls_high` class columns against `rois_label`; it is not the
`RCNN_loss_cls` returned by the model (the loss is invariant in that
value). -/
theorem claim_C3_loss_formula {M : Type} (env : Env M) (now_cls_high : ℕ)
    (o : ForwardOut) :
    iterLoss env now_cls_high o =
      mean o.rpn_loss_cls + mean o.rpn_loss_bbox +
        env.cross_entropy (o.cls_score.map (fun row => row.take now_cls_high))
          o.rois_label +
        mean o.RCNN_loss_bbox ∧
    ∀ x, iterLoss env now_cls_high { o with RCNN_loss_cls := x } =
      iterLoss env now_cls_high o :=
  ⟨rfl, fun _ => rfl⟩

/-- C8: when `--group` is `-1` the group loop trains every group from `0` to
`cfg.CIOD.GROUPS - 1` in increasing order; for any other value it trains
exactly that single group. -/
theorem claim_C8_group_selection {M : Type} (cfg : Cfg) (args : Args) (env : Env M)
    (rs : List (GroupRun M)) (h : runGroups cfg args env = Except.ok rs) :
    rs.map (fun r => r.group) = trainedGroups cfg.CIOD.GROUPS args.group ∧
    trainedGroups cfg.CIOD.GROUPS args.group =
      (if args.group = -1 then (List.range cfg.CIOD.GROUPS).map (fun i => (i : ℤ))
       else [args.group]) := by
  refine ⟨(runGroups_mem h).1, ?_⟩
  by_cases hg : args.group = -1
  · simp [trainedGroups, start_end_group, intRange, hg]
  · have h1 : List.range 1 = [0] := rfl
    simp [trainedGroups, start_end_group, intRange, hg, h1]

/-- C8 witness: on the concrete inputs (`--group` equal to `-1`, 2 groups) the
script trains groups 0 and 1 in order. -/
theorem claim_C8_witness :
    runsW.map (fun r => r.group) = trainedGroups cfgW.CIOD.GROUPS argsW.group ∧
    trainedGroups cfgW.CIOD.GROUPS argsW.group =
      (if argsW.group = -1 then (List.range cfgW.CIOD.GROUPS).map (fun i => (i : ℤ))
       else [argsW.group]) :=
  claim_C8_group_selection cfgW argsW envW runsW rfl

/-- C2: every trained group `g` reads its class window from `group_cls` —
`now_cls_low = group_cls[g]`, `now_cls_high = group_cls[g + 1]` — and loads
its training data over exactly the classes `cfg.CLASSES[:now_cls_high]`,
where `group_cls` is the boundary list `ciod_old_and_new` produces from
`cfg.NUM_CLASSES` and `cfg.CIOD.GROUPS` (one boundary per group plus one). -/
theorem claim_C2_group_classes {M : Type} (cfg : Cfg) (args : Args) (env : Env M)
    (rs : List (GroupRun M)) (h : runGroups cfg args env = Except.ok rs)
    (r : GroupRun M) (hr : r ∈ rs) :
    pyIndex (ciod_old_and_new cfg.NUM_CLASSES cfg.CIOD.GROUPS cfg.CIOD.DISTILL_GROUP)
        r.group = some r.now_cls_low ∧
    pyIndex (ciod_old_and_new cfg.NUM_CLASSES cfg.CIOD.GROUPS cfg.CIOD.DISTILL_GROUP)
        (r.group + 1) = some r.now_cls_high ∧
    r.trainClasses = cfg.CLASSES.take r.now_cls_high ∧
    (ciod_old_and_new cfg.NUM_CLASSES cfg.CIOD.GROUPS cfg.CIOD.DISTILL_GROUP).length =
      cfg.CIOD.GROUPS + 1 := by
  have hstep := (runGroups_mem h).2 r hr
  obtain ⟨s, hs, hr2⟩ := groupStep_ok hstep
  obtain ⟨hlo, hhi, -, -, -, -, -, -⟩ := groupCheck_ok hs
  refine ⟨?_, ?_, ?_, ?_⟩
  · rw [hr2, mkRun_group, mkRun_now_cls_low]
    exact hlo
  · rw [hr2, mkRun_group, mkRun_now_cls_high]
    exact hhi
  · rw [hr2, mkRun_trainClasses, mkRun_now_cls_high]
  · simp [ciod_old_and_new]

/-- C2 witness: on the concrete inputs, group 1 has `now_cls_low = 2`,
`now_cls_high = 3`, and trains on the first three entries of `cfg.CLASSES`. -/
theorem claim_C2_witness :
    pyIndex (ciod_old_and_new cfgW.NUM_CLASSES cfgW.CIOD.GROUPS cfgW.CIOD.DISTILL_GROUP)
        rW1.group = some rW1.now_cls_low ∧
    pyIndex (ciod_old_and_new cfgW.NUM_CLASSES cfgW.CIOD.GROUPS cfgW.CIOD.DISTILL_GROUP)
        (rW1.group + 1) = some rW1.now_cls_high ∧
    rW1.trainClasses = cfgW.CLASSES.take rW1.now_cls_high ∧
    (ciod_old_and_new cfgW.NUM_CLASSES cfgW.CIOD.GROUPS cfgW.CIOD.DISTILL_GROUP).length =
      cfgW.CIOD.GROUPS + 1 :=
  claim_C2_group_classes cfgW argsW envW runsW rfl rW1 rW1_mem

/-- C5: at the start of every trained group a fresh optimizer is constructed —
Adam when `cfg.TRAIN.OPTIMIZER` is `"adam"`, SGD with momentum
`cfg.TRAIN.MOMENTUM` when it is `"sgd"` (no other value trains) — and its
learning rate is reset to `cfg.TRAIN.LEARNING_RATE`, times `0.1` for adam;
the reset value depends only on the configuration, not on decay applied in
earlier groups. -/
theorem claim_C5_optimizer_reset {M : Type} (cfg : Cfg) (args : Args) (env : Env M)
    (rs : List (GroupRun M)) (h : runGroups cfg args env = Except.ok rs)
    (r : GroupRun M) (hr : r ∈ rs) :
    r.st0.lr = (if cfg.TRAIN.OPTIMIZER = "adam"
                then cfg.TRAIN.LEARNING_RATE * (1 / 10)
                else cfg.TRAIN.LEARNING_RATE) ∧
    r.st0.opt.lr = r.st0.lr ∧
    r.st0.opt.kind = (if cfg.TRAIN.OPTIMIZER = "adam" then OptKind.adam
                      else OptKind.sgd cfg.TRAIN.MOMENTUM) ∧
    (cfg.TRAIN.OPTIMIZER = "adam" ∨ cfg.TRAIN.OPTIMIZER = "sgd") := by
  have hstep := (runGroups_mem h).2 r hr
  obtain ⟨s, hs, hr2⟩ := groupStep_ok hstep
  obtain ⟨-, -, -, -, hopt, hlr0, -, -⟩ := groupCheck_ok hs
  obtain ⟨o, ho, hso⟩ := hopt
  obtain ⟨hkinds, hokind, -⟩ := mkOptimizer_ok ho
  refine ⟨?_, ?_, ?_, hkinds⟩
  · rw [hr2, mkRun_st0_lr, hlr0]
    rfl
  · rw [hr2, mkRun_st0_opt, mkRun_st0_lr, hso]
    rfl
  · rw [hr2, mkRun_st0_opt, hso]
    exact hokind

/-- C5 witness: on the concrete inputs (SGD), group 0 starts with learning
rate 1 and an SGD optimizer with momentum 9/10. -/
theorem claim_C5_witness :
    rW0.st0.lr = (if cfgW.TRAIN.OPTIMIZER = "adam"
                  then cfgW.TRAIN.LEARNING_RATE * (1 / 10)
                  else cfgW.TRAIN.LEARNING_RATE) ∧
    rW0.st0.opt.lr = rW0.st0.lr ∧
    rW0.st0.opt.kind = (if cfgW.TRAIN.OPTIMIZER = "adam" then OptKind.adam
                        else OptKind.sgd cfgW.TRAIN.MOMENTUM) ∧
    (cfgW.TRAIN.OPTIMIZER = "adam" ∨ cfgW.TRAIN.OPTIMIZER = "sgd") :=
  claim_C5_optimizer_reset cfgW argsW envW runsW rfl rW0 rW0_mem

theorem save_checkpoint_path {M : Type} (d : CkptDict M) (p : String) :
    (save_checkpoint d p).path = p := rfl

theorem save_checkpoint_dict {M : Type} (d : CkptDict M) (p : String) :
    (save_checkpoint d p).dict = d := rfl

/-- C6: every trained group runs exactly `cfg.TRAIN.MAX_EPOCH` epochs and
every epoch runs exactly `train_size / cfg.TRAIN.BATCH_SIZE` (floor)
iterations, where `train_size` is the group's roidb length; in particular a
group with `train_size < BATCH_SIZE` performs zero iterations per epoch. -/
theorem claim_C6_epoch_iteration_counts {M : Type} (cfg : Cfg) (args : Args)
    (env : Env M) (rs : List (GroupRun M)) (h : runGroups cfg args env = Except.ok rs)
    (r : GroupRun M) (hr : r ∈ rs) :
    r.train_size = env.roidbSize r.group ∧
    r.iters_per_epoch = r.train_size / cfg.TRAIN.BATCH_SIZE ∧
    r.final.epochs_done = cfg.TRAIN.MAX_EPOCH ∧
    r.final.tot_step = cfg.TRAIN.MAX_EPOCH * r.iters_per_epoch ∧
    (r.train_size < cfg.TRAIN.BATCH_SIZE → r.iters_per_epoch = 0) := by
  have hstep := (runGroups_mem h).2 r hr
  obtain ⟨s, hs, hr2⟩ := groupStep_ok hstep
  refine ⟨?_, ?_, ?_, ?_, ?_⟩
  · rw [hr2, mkRun_train_size, mkRun_group]
  · rw [hr2, mkRun_iters_per_epoch, mkRun_train_size]
  · rw [hr2, mkRun_final, epochLoopTo_epochs_done, mkRun_st0_epochs_done]
    exact Nat.zero_add _
  · rw [hr2, mkRun_final, epochLoopTo_tot_step, mkRun_st0_tot_step]
    exact Nat.zero_add _
  · intro hlt
    rw [hr2, mkRun_train_size] at hlt
    rw [hr2, mkRun_iters_per_epoch]
    exact Nat.div_eq_of_lt hlt

/-- C6 witness: on the concrete inputs group 0 has 7 roidb entries, batch
size 2, hence 3 iterations per epoch, 5 epochs and 15 total steps. -/
theorem claim_C6_witness :
    rW0.train_size = envW.roidbSize rW0.group ∧
    rW0.iters_per_epoch = rW0.train_size / cfgW.TRAIN.BATCH_SIZE ∧
    rW0.final.epochs_done = cfgW.TRAIN.MAX_EPOCH ∧
    rW0.final.tot_step = cfgW.TRAIN.MAX_EPOCH * rW0.iters_per_epoch ∧
    (rW0.train_size < cfgW.TRAIN.BATCH_SIZE → rW0.iters_per_epoch = 0) :=
  claim_C6_epoch_iteration_counts cfgW argsW envW runsW rfl rW0 rW0_mem

/-- C4: within every trained group, the learning rate after `E` epochs equals
the group's initial rate times `LEARNING_RATE_DECAY_GAMMA` raised to the
number of epochs `e < E` with `e % LEARNING_RATE_DECAY_STEP == 0` and
`e > 0` — the decay fires at the start of exactly those epochs and nowhere
else — and the same holds for the optimizer's rate at the end of the
group's `MAX_EPOCH` epochs. -/
theorem claim_C4_lr_decay_schedule {M : Type} (cfg : Cfg) (args : Args) (env : Env M)
    (rs : List (GroupRun M)) (E : ℕ) (h : runGroups cfg args env = Except.ok rs)
    (r : GroupRun M) (hr : r ∈ rs) :
    (epochLoopTo cfg.TRAIN.LEARNING_RATE_DECAY_STEP cfg.TRAIN.LEARNING_RATE_DECAY_GAMMA
        r.iters_per_epoch env.trainStep r.st0 E).lr =
      r.st0.lr * cfg.TRAIN.LEARNING_RATE_DECAY_GAMMA ^
        decayCount cfg.TRAIN.LEARNING_RATE_DECAY_STEP E ∧
    r.final.lr = r.st0.lr * cfg.TRAIN.LEARNING_RATE_DECAY_GAMMA ^
        decayCount cfg.TRAIN.LEARNING_RATE_DECAY_STEP cfg.TRAIN.MAX_EPOCH ∧
    r.final.opt.lr = r.st0.opt.lr * cfg.TRAIN.LEARNING_RATE_DECAY_GAMMA ^
        decayCount cfg.TRAIN.LEARNING_RATE_DECAY_STEP cfg.TRAIN.MAX_EPOCH ∧
    decayCount cfg.TRAIN.LEARNING_RATE_DECAY_STEP E =
      ((List.range E).filter
        (fun e => (e % cfg.TRAIN.LEARNING_RATE_DECAY_STEP == 0) &&
          decide (0 < e))).length := by
  have hstep := (runGroups_mem h).2 r hr
  obtain ⟨s, hs, hr2⟩ := groupStep_ok hstep
  refine ⟨epochLoopTo_lr _ _ _ _ _ _, ?_, ?_, rfl⟩
  · rw [hr2, mkRun_final, epochLoopTo_lr]
  · rw [hr2, mkRun_final, epochLoopTo_opt_lr]

/-- C4 witness: on the concrete inputs (decay step 2, factor 1/2, 5 epochs,
initial rate 1) the rate decays at epochs 2 and 4 and ends at 1/4. -/
theorem claim_C4_witness :
    (epochLoopTo cfgW.TRAIN.LEARNING_RATE_DECAY_STEP cfgW.TRAIN.LEARNING_RATE_DECAY_GAMMA
        rW0.iters_per_epoch envW.trainStep rW0.st0 5).lr =
      rW0.st0.lr * cfgW.TRAIN.LEARNING_RATE_DECAY_GAMMA ^
        decayCount cfgW.TRAIN.LEARNING_RATE_DECAY_STEP 5 ∧
    rW0.final.lr = rW0.st0.lr * cfgW.TRAIN.LEARNING_RATE_DECAY_GAMMA ^
        decayCount cfgW.TRAIN.LEARNING_RATE_DECAY_STEP cfgW.TRAIN.MAX_EPOCH ∧
    rW0.final.opt.lr = rW0.st0.opt.lr * cfgW.TRAIN.LEARNING_RATE_DECAY_GAMMA ^
        decayCount cfgW.TRAIN.LEARNING_RATE_DECAY_STEP cfgW.TRAIN.MAX_EPOCH ∧
    decayCount cfgW.TRAIN.LEARNING_RATE_DECAY_STEP 5 =
      ((List.range 5).filter
        (fun e => (e % cfgW.TRAIN.LEARNING_RATE_DECAY_STEP == 0) &&
          decide (0 < e))).length :=
  claim_C4_lr_decay_schedule cfgW argsW envW runsW 5 rfl rW0 rW0_mem

/-- C7: exactly one checkpoint is saved per trained group — the run list and
the group list have the same length and the saved paths are exactly
`save_name` of each trained group — after the group's epoch loop completes
(the saved model state is the final state of the epoch loop), at path
`save_dir/session/net/dataset/faster_rcnn_{session}_{net}_{dataset}_{group}.pth`,
and its `epoch` field records `cfg.TRAIN.MAX_EPOCH`. -/
theorem claim_C7_checkpoint_per_group {M : Type} (cfg : Cfg) (args : Args) (env : Env M)
    (rs : List (GroupRun M)) (h : runGroups cfg args env = Except.ok rs)
    (r : GroupRun M) (hr : r ∈ rs) :
    rs.length = (trainedGroups cfg.CIOD.GROUPS args.group).length ∧
    rs.map (fun x => x.checkpoint.path) =
      (trainedGroups cfg.CIOD.GROUPS args.group).map (fun g => save_name args g) ∧
    r.checkpoint.path =
      args.save_dir ++ "/" ++ toString args.session ++ "/" ++ args.net ++ "/" ++
        args.dataset ++ "/" ++ "faster_rcnn_" ++ toString args.session ++ "_" ++
        args.net ++ "_" ++ args.dataset ++ "_" ++ toString r.group ++ ".pth" ∧
    r.checkpoint.dict.epoch = cfg.TRAIN.MAX_EPOCH ∧
    r.checkpoint.dict.model = r.final.model := by
  obtain ⟨hmap, hall⟩ := runGroups_mem h
  have hpath : ∀ x ∈ rs, x.checkpoint.path = save_name args x.group := by
    intro x hx
    obtain ⟨s, hs, hx2⟩ := groupStep_ok (hall x hx)
    rw [hx2, mkRun_checkpoint, save_checkpoint_path, mkRun_group]
  obtain ⟨s, hs, hr2⟩ := groupStep_ok (hall r hr)
  refine ⟨?_, ?_, ?_, ?_, ?_⟩
  · rw [← hmap, List.length_map]
  · calc rs.map (fun x => x.checkpoint.path)
        = rs.map (fun x => save_name args x.group) := List.map_congr_left hpath
      _ = (rs.map (fun x => x.group)).map (fun g => save_name args g) := by
          rw [List.map_map]
          rfl
      _ = (trainedGroups cfg.CIOD.GROUPS args.group).map (fun g => save_name args g) := by
          rw [hmap]
  · rw [hpath r hr]
    rfl
  · rw [hr2, mkRun_checkpoint, save_checkpoint_dict]
  · rw [hr2, mkRun_checkpoint, save_checkpoint_dict]

/-- C7 witness: on the concrete inputs two checkpoints are saved, group 1's at
`results/1/vgg16/2007/faster_rcnn_1_vgg16_2007_1.pth` with epoch field 5. -/
theorem claim_C7_witness :
    runsW.length = (trainedGroups cfgW.CIOD.GROUPS argsW.group).length ∧
    runsW.map (fun x => x.checkpoint.path) =
      (trainedGroups cfgW.CIOD.GROUPS argsW.group).map (fun g => save_name argsW g) ∧
    rW1.checkpoint.path =
      argsW.save_dir ++ "/" ++ toString argsW.session ++ "/" ++ argsW.net ++ "/" ++
        argsW.dataset ++ "/" ++ "faster_rcnn_" ++ toString argsW.session ++ "_" ++
        argsW.net ++ "_" ++ argsW.dataset ++ "_" ++ toString rW1.group ++ ".pth" ∧
    rW1.checkpoint.dict.epoch = cfgW.TRAIN.MAX_EPOCH ∧
    rW1.checkpoint.dict.model = rW1.final.model :=
  claim_C7_checkpoint_per_group cfgW argsW envW runsW rfl rW1 rW1_mem

/-- C10: `class_means` and `class_proto` are created once — a `2048 ×
(NUM_CLASSES + 1)` zero matrix and `TOTAL_CLS + 1` empty lists — and never
modified, so every saved checkpoint stores `cls_means` as all zeros and
`cls_proto` as all-empty lists. -/
theorem claim_C10_frozen_class_state {M : Type} (cfg : Cfg) (args : Args) (env : Env M)
    (rs : List (GroupRun M)) (h : runGroups cfg args env = Except.ok rs)
    (r : GroupRun M) (hr : r ∈ rs) :
    r.checkpoint.dict.cls_means = class_means cfg.NUM_CLASSES ∧
    r.checkpoint.dict.cls_proto = class_proto cfg.CIOD.TOTAL_CLS ∧
    class_means cfg.NUM_CLASSES =
      List.replicate 2048 (List.replicate (cfg.NUM_CLASSES + 1) (0 : ℚ)) ∧
    class_proto cfg.CIOD.TOTAL_CLS =
      List.replicate (cfg.CIOD.TOTAL_CLS + 1) ([] : List ℚ) := by
  have hstep := (runGroups_mem h).2 r hr
  obtain ⟨s, hs, hr2⟩ := groupStep_ok hstep
  refine ⟨?_, ?_, rfl, rfl⟩
  · rw [hr2, mkRun_checkpoint, save_checkpoint_dict]
  · rw [hr2, mkRun_checkpoint, save_checkpoint_dict]

/-- C10 witness: group 0's checkpoint on the concrete inputs stores the zero
matrix and the empty prototype lists. -/
theorem claim_C10_witness :
    rW0.checkpoint.dict.cls_means = class_means cfgW.NUM_CLASSES ∧
    rW0.checkpoint.dict.cls_proto = class_proto cfgW.CIOD.TOTAL_CLS ∧
    class_means cfgW.NUM_CLASSES =
      List.replicate 2048 (List.replicate (cfgW.NUM_CLASSES + 1) (0 : ℚ)) ∧
    class_proto cfgW.CIOD.TOTAL_CLS =
      List.replicate (cfgW.CIOD.TOTAL_CLS + 1) ([] : List ℚ) :=
  claim_C10_frozen_class_state cfgW argsW envW runsW rfl rW0 rW0_mem

/-- C1 counterexample: on the concrete inputs the script trains both groups
(`--group` is `-1`); group 0 ends the epoch loop with detector state 15, yet
group 1 enters its epoch loop from the fresh state 0 — the state produced by
training group 0 is not the starting point of group 1. -/
theorem claim_C1_counterexample :
    runGroups cfgW argsW envW = Except.ok runsW ∧
    argsW.group = -1 ∧
    runsW.length = 2 ∧
    rW1.st0.model ≠ rW0.final.model := by
  refine ⟨rfl, rfl, rfl, ?_⟩
  decide

/-- C1 amended: the model does not carry over between groups — at the start of
every trained group the detector is re-constructed afresh by the
network-selection code (from the pretrained backbone), so every trained
group starts from the same freshly constructed state, whatever training
earlier groups performed. -/
theorem claim_C1_fresh_detector_per_group {M : Type} (cfg : Cfg) (args : Args)
    (env : Env M) (rs : List (GroupRun M)) (h : runGroups cfg args env = Except.ok rs)
    (r r2 : GroupRun M) (hr : r ∈ rs) (hr2 : r2 ∈ rs) :
    mkNet env cfg.CLASSES args.net args.class_agnostic = Except.ok r.st0.model ∧
    r2.st0.model = r.st0.model := by
  obtain ⟨-, hall⟩ := runGroups_mem h
  obtain ⟨s, hs, he⟩ := groupStep_ok (hall r hr)
  obtain ⟨s2, hs2, he2⟩ := groupStep_ok (hall r2 hr2)
  obtain ⟨-, -, -, hfresh, -, -, -, -⟩ := groupCheck_ok hs
  obtain ⟨-, -, -, hfresh2, -, -, -, -⟩ := groupCheck_ok hs2
  have em : r.st0.model = s.freshModel := by rw [he, mkRun_st0_model]
  have em2 : r2.st0.model = s2.freshModel := by rw [he2, mkRun_st0_model]
  constructor
  · rw [em]
    exact hfresh
  · rw [em, em2]
    exact (Except.ok.inj (hfresh.symm.trans hfresh2)).symm

/-- C1 witness for the amended claim: on the concrete inputs both groups start
from the freshly constructed detector state. -/
theorem claim_C1_witness :
    mkNet envW cfgW.CLASSES argsW.net argsW.class_agnostic = Except.ok rW0.st0.model ∧
    rW1.st0.model = rW0.st0.model :=
  claim_C1_fresh_detector_per_group cfgW argsW envW runsW rfl rW0 rW1 rW0_mem rW1_mem

/-- C9: for a trained group (with valid class boundaries), `KeyError` is
raised before any training occurs exactly for the unsupported
configurations: `"Unknown Network"` exactly when `args.net` is neither
`"vgg16"` nor a string starting with `"res"`, and `"Unknown Optimizer"`
exactly when the network was constructed but `cfg.TRAIN.OPTIMIZER` is
neither `"adam"` nor `"sgd"`.  An error result aborts the group before its
run record — and hence before any training iteration — exists. -/
theorem claim_C9_unsupported_config {M : Type} (cfg : Cfg) (args : Args) (env : Env M)
    (group_cls : List ℕ) (g : ℤ) (lo hi : ℕ)
    (h1 : pyIndex group_cls g = some lo) (h2 : pyIndex group_cls (g + 1) = some hi)
    (h3 : 1 < hi) :
    (groupStep cfg args env group_cls g = Except.error "Unknown Network" ↔
      ¬(args.net = "vgg16" ∨ args.net.startsWith "res")) ∧
    (groupStep cfg args env group_cls g = Except.error "Unknown Optimizer" ↔
      (∃ m, mkNet env cfg.CLASSES args.net args.class_agnostic = Except.ok m) ∧
        cfg.TRAIN.OPTIMIZER ≠ "adam" ∧ cfg.TRAIN.OPTIMIZER ≠ "sgd") := by
  have hnz : ¬(hi - 1 = 0) := by omega
  have hgc := groupCheck_eq_of_index cfg args env h1 h2 hnz
  constructor
  · rw [show groupStep cfg args env group_cls g =
        Except.map (mkRun cfg args env g) (groupCheck cfg args env group_cls g) from rfl,
      except_map_error, hgc]
    cases hn : mkNet env cfg.CLASSES args.net args.class_agnostic with
    | error e =>
      rw [except_error_bind]
      rcases mkNet_error_elim hn with ⟨he, hcond⟩ | ⟨he, hres⟩
      · subst he
        exact iff_of_true rfl hcond
      · subst he
        refine iff_of_false ?_ (fun hc => hc (Or.inr hres))
        intro hx
        exact absurd (Except.error.inj hx) (by decide)
    | ok m =>
      have hnet := mkNet_ok_elim hn
      rw [except_ok_bind]
      refine iff_of_false ?_ (fun hc => hc hnet)
      intro hx
      rcases except_bind_error.mp hx with ho | ⟨o, ho, htail⟩
      · obtain ⟨he, -, -⟩ := mkOptimizer_error_elim ho
        exact absurd he (by decide)
      · exact absurd (guards_tail_error htail) (by decide)
  · rw [show groupStep cfg args env group_cls g =
        Except.map (mkRun cfg args env g) (groupCheck cfg args env group_cls g) from rfl,
      except_map_error, hgc]
    cases hn : mkNet env cfg.CLASSES args.net args.class_agnostic with
    | error e =>
      rw [except_error_bind]
      refine iff_of_false ?_ ?_
      · intro hx
        have he := Except.error.inj hx
        rcases mkNet_error_elim hn with ⟨he2, -⟩ | ⟨he2, -⟩ <;> subst he2 <;>
          exact absurd he (by decide)
      · rintro ⟨⟨m, hm⟩, -, -⟩
        exact Except.noConfusion hm
    | ok m =>
      rw [except_ok_bind]
      cases ho : mkOptimizer cfg with
      | error e2 =>
        rw [except_error_bind]
        obtain ⟨he2, ha, hs⟩ := mkOptimizer_error_elim ho
        subst he2
        exact iff_of_true rfl ⟨⟨m, rfl⟩, ha, hs⟩
      | ok o =>
        rw [except_ok_bind]
        obtain ⟨hkinds, -, -⟩ := mkOptimizer_ok ho
        refine iff_of_false ?_ ?_
        · intro hx
          exact absurd (guards_tail_error hx) (by decide)
        · rintro ⟨-, ha, hs⟩
          rcases hkinds with hk | hk
          · exact ha hk
          · exact hs hk

/-- Arguments naming a network the script does not know. -/
def argsX : Args := { argsW with net := "alexnet" }

/-- C9 witness: with network name `"alexnet"` (and otherwise the concrete
inputs), the group raises `KeyError("Unknown Network")` and trains nothing. -/
theorem claim_C9_witness :
    (groupStep cfgW argsX envW [1, 2, 3] 0 = Except.error "Unknown Network" ↔
      ¬(argsX.net = "vgg16" ∨ argsX.net.startsWith "res")) ∧
    (groupStep cfgW argsX envW [1, 2, 3] 0 = Except.error "Unknown Optimizer" ↔
      (∃ m, mkNet envW cfgW.CLASSES argsX.net argsX.class_agnostic = Except.ok m) ∧
        cfgW.TRAIN.OPTIMIZER ≠ "adam" ∧ cfgW.TRAIN.OPTIMIZER ≠ "sgd") :=
  claim_C9_unsupported_config cfgW argsX envW [1, 2, 3] 0 1 2 (by decide) (by decide)
    (by decide)
